import Mathlib

/-!
Verification of the game-state simulation of a small falling-block puzzle game
(10 by 20 playfield, seven tetromino variants, gravity, rotation with rollback,
locking, row clearing).  The definitions below are a shallow embedding of the
Rust source (src/main.rs): grids and shapes are lists of lists, machine `i32`
coordinates are `Int`, `Option<PieceType>` cells are `Option PieceType`.
The random variant drawn inside spawn_new_piece is modelled as an oracle
argument supplied by the caller, so the simulation becomes a deterministic
step function over an input trace.
-/

set_option autoImplicit false

namespace Tetrust

/-- The seven tetromino variants (Rust enum PieceType). -/
inductive PieceType where
  | I | J | L | O | S | T | Z
deriving DecidableEq, Repr

/-- A grid cell: empty or occupied by a variant (Rust Option<PieceType>). -/
abbrev Cell := Option PieceType

/-- One grid row (Rust Vec<Option<PieceType>>, always 10 wide in real states). -/
abbrev Row := List Cell

/-- The playfield (Rust Vec<Vec<Option<PieceType>>>, 20 rows of 10 cells). -/
abbrev Grid := List Row

/-- A piece shape: rectangular boolean matrix (Rust Vec<Vec<bool>>). -/
abbrev Shape := List (List Bool)

/-- Rust GameState::get_piece_shape: canonical layout of each variant. -/
def getPieceShape : PieceType → Shape
  | .I => [[true, true, true, true]]
  | .J => [[true, false, false], [true, true, true]]
  | .L => [[false, false, true], [true, true, true]]
  | .O => [[true, true], [true, true]]
  | .S => [[false, true, true], [true, true, false]]
  | .T => [[false, true, false], [true, true, true]]
  | .Z => [[true, true, false], [false, true, true]]

/-- Rust struct Piece: shape, origin (x, y) as i32, and the variant. -/
structure Piece where
  shape : Shape
  x : Int
  y : Int
  piece_type : PieceType
deriving DecidableEq, Repr

/-- Rust struct GameState, restricted to the simulation fields (grid and
current piece).  The frame-timing fields (last_fall, fall_speed, block_size)
carry no simulation logic and are omitted. -/
structure GameState where
  grid : Grid
  current_piece : Piece
deriving DecidableEq, Repr

/-- Rust GameState::spawn_new_piece.  The `rng.gen_range(0..7)` draw is
modelled by the oracle argument `pt`; position and shape follow the source:
origin (4, 0), shape from the catalog.  No collision check is performed. -/
def spawnNewPiece (pt : PieceType) : Piece :=
  { shape := getPieceShape pt, x := 4, y := 0, piece_type := pt }

/-- Cell (r, c) of a shape, false outside the matrix (Rust indexes only in
range, so the default is never consulted on real calls). -/
def shapeAt (s : Shape) (r c : Nat) : Bool :=
  (s.getD r []).getD c false

/-- Cell (r, c) of a grid, empty outside the matrix (Rust indexes only in
range on real calls, see the reachable-state bounds theorems). -/
def cellAt (g : Grid) (r c : Nat) : Cell :=
  (g.getD r []).getD c none

/-- The per-cell legality test inside Rust GameState::can_move, for an
occupied shape cell whose absolute grid coordinates are (gy, gx):
reject columns outside [0, 10) and rows at or below the floor (gy >= 20);
otherwise reject occupied grid cells at nonnegative rows. -/
def cellOk (g : Grid) (gx gy : Int) : Bool :=
  if gx < 0 ∨ 10 ≤ gx ∨ 20 ≤ gy then false
  else if 0 ≤ gy ∧ (cellAt g gy.toNat gx.toNat).isSome then false
  else true

/-- Rust GameState::can_move(new_x, new_y): every occupied cell of the given
shape must pass cellOk at its absolute position. -/
def canMove (g : Grid) (sh : Shape) (nx ny : Int) : Bool :=
  (List.range sh.length).all fun r =>
    (List.range (sh.getD r []).length).all fun c =>
      !(shapeAt sh r c) || cellOk g (nx + c) (ny + r)

/-- The rotated-shape computation inside Rust GameState::rotate_piece:
new_shape is a cols-by-rows matrix with new_shape[j][rows-1-i] = old[i][j],
i.e. entry (j, k) of the result is entry (rows-1-k, j) of the source. -/
def rotateShape (s : Shape) : Shape :=
  let rows := s.length
  let cols := (s.getD 0 []).length
  (List.range cols).map fun j =>
    (List.range rows).map fun k => shapeAt s (rows - 1 - k) j

/-- Rust GameState::rotate_piece: tentatively replace the shape by the
rotated matrix, keep it exactly when can_move accepts it at the unchanged
origin, otherwise restore the original shape.  Nothing else changes. -/
def rotatePiece (st : GameState) : GameState :=
  if canMove st.grid (rotateShape st.current_piece.shape)
      st.current_piece.x st.current_piece.y then
    { st with current_piece :=
        { st.current_piece with shape := rotateShape st.current_piece.shape } }
  else st

/-- Row completeness test inside Rust GameState::clear_rows:
all cells of the row are occupied. -/
def isComplete (row : Row) : Bool :=
  row.all fun cell => cell.isSome

/-- An all-empty 10-wide row (Rust vec![None; 10]). -/
def emptyRow : Row :=
  List.replicate 10 (none : Cell)

/-- The shift performed by Rust clear_rows on finding a complete row at
index r: rows 0..r-1 move down to 1..r, row 0 becomes empty, rows below r
are untouched. -/
def removeRow (g : Grid) (r : Nat) : Grid :=
  emptyRow :: (g.take r ++ g.drop (r + 1))

/-- Number of complete rows of a grid; strictly decreases at every shift of
clear_rows, which bounds the number of loop iterations. -/
def completeCount (g : Grid) : Nat :=
  g.countP fun row => isComplete row

/-- The while loop of Rust GameState::clear_rows, indexed by the remaining
iteration budget.  Each recursive call consumes one budget unit; `none`
means the budget ran out (never happens below the proven bound) or the row
index went out of range (a panic in Rust; never happens on 20-row grids).
The loop body is literal: at 0 < row, a complete row at index `row` is
shifted away and the same index is re-examined, otherwise the index
decreases; at row = 0 the loop exits. -/
def clearRowsGo (fuel : Nat) (g : Grid) (row : Nat) : Option Grid :=
  match fuel with
  | 0 => none
  | fuel + 1 =>
    if 0 < row then
      if isComplete (g.getD row []) then
        if row < g.length then clearRowsGo fuel (removeRow g row) row
        else none
      else clearRowsGo fuel g (row - 1)
    else some g

/-- Rust GameState::clear_rows: run the loop from row 19 with the (proven
sufficient, see the termination theorem) budget 20 * completeCount g + 20. -/
def clearRows (g : Grid) : Grid :=
  (clearRowsGo (20 * completeCount g + 20) g 19).getD g

/-- Write `some pt` into the grid at (r, c) (Rust grid[r][c] = Some(..)).
List.set leaves the grid unchanged out of range; the reachable-state bounds
theorems show real calls are always in range. -/
def setCell (g : Grid) (r c : Nat) (pt : PieceType) : Grid :=
  g.set r ((g.getD r []).set c (some pt))

/-- The loop body of Rust GameState::lock_piece for one shape position
p = (r, c): if the shape cell is occupied and its absolute row is
nonnegative, write the variant into the grid there, else do nothing. -/
def writeCell (sh : Shape) (x y : Int) (pt : PieceType) (g : Grid)
    (p : Nat × Nat) : Grid :=
  if shapeAt sh p.1 p.2 then
    if 0 ≤ y + (p.1 : Int) then setCell g (y + (p.1 : Int)).toNat (x + (p.2 : Int)).toNat pt
    else g
  else g

/-- The write phase of Rust GameState::lock_piece: the nested loops over
shape rows and cells, applying writeCell at every position. -/
def lockWrite (g : Grid) (sh : Shape) (x y : Int) (pt : PieceType) : Grid :=
  (List.range sh.length).foldl
    (fun acc r =>
      (List.range (sh.getD r []).length).foldl
        (fun acc2 c => writeCell sh x y pt acc2 (r, c)) acc)
    g

/-- Rust GameState::lock_piece: write the piece into the grid, then clear
completed rows, then replace the current piece by a fresh spawn (variant
drawn by the oracle `next`). -/
def lockPiece (st : GameState) (next : PieceType) : GameState :=
  { grid := clearRows (lockWrite st.grid st.current_piece.shape
      st.current_piece.x st.current_piece.y st.current_piece.piece_type),
    current_piece := spawnNewPiece next }

/-- The horizontal-move handler in the Rust main loop (Left/Right keys):
move the origin by dx when can_move accepts the candidate position. -/
def tryShift (st : GameState) (dx : Int) : GameState :=
  if canMove st.grid st.current_piece.shape (st.current_piece.x + dx)
      st.current_piece.y then
    { st with current_piece := { st.current_piece with x := st.current_piece.x + dx } }
  else st

/-- The gravity step in the Rust main loop: descend by one row when
can_move accepts it, otherwise lock the piece (which respawns). -/
def stepTick (st : GameState) (next : PieceType) : GameState :=
  if canMove st.grid st.current_piece.shape st.current_piece.x
      (st.current_piece.y + 1) then
    { st with current_piece := { st.current_piece with y := st.current_piece.y + 1 } }
  else lockPiece st next

/-- One public input to the simulation: a horizontal move, a rotation, or a
gravity tick firing (carrying the oracle variant used if a lock occurs). -/
inductive Input where
  | left
  | right
  | rot
  | tick (next : PieceType)
deriving DecidableEq, Repr

/-- Dispatch of one input, exactly as the Rust main loop does. -/
def step (st : GameState) : Input → GameState
  | .left => tryShift st (-1)
  | .right => tryShift st 1
  | .rot => rotatePiece st
  | .tick next => stepTick st next

/-- Rust GameState::new: empty 20 by 10 grid and a freshly spawned piece
(variant drawn by the oracle `first`). -/
def newGame (first : PieceType) : GameState :=
  { grid := List.replicate 20 emptyRow, current_piece := spawnNewPiece first }

/-- Run a trace of inputs from a state. -/
def run (st : GameState) (inputs : List Input) : GameState :=
  inputs.foldl step st

/-- States reachable from a new game through the public mutators. -/
def Reachable (st : GameState) : Prop :=
  ∃ p inputs, st = run (newGame p) inputs

/-- Bounds part of the collision predicate, as a standalone check: every
occupied shape cell has absolute column in [0, 10) and absolute row < 20. -/
def inBoundsSh (sh : Shape) (x y : Int) : Bool :=
  (List.range sh.length).all fun r =>
    (List.range (sh.getD r []).length).all fun c =>
      !(shapeAt sh r c) || decide (0 ≤ x + c ∧ x + c < 10 ∧ y + r < 20)

/-- The current piece passes the full collision predicate at its own
position (the invariant claimed by the specification). -/
def pieceValid (st : GameState) : Bool :=
  canMove st.grid st.current_piece.shape st.current_piece.x st.current_piece.y

/-- The current piece lies within the side and bottom bounds. -/
def pieceInBounds (st : GameState) : Bool :=
  inBoundsSh st.current_piece.shape st.current_piece.x st.current_piece.y

/-- Well-formed grid: exactly 20 rows, each exactly 10 cells wide. -/
def gridWF (g : Grid) : Bool :=
  g.length == 20 && g.all fun row => row.length == 10

/-- Positions (r, c) visited by the nested loops of lock_piece, row-major. -/
def shapePositions (sh : Shape) : List (Nat × Nat) :=
  (List.range sh.length).flatMap fun r =>
    (List.range (sh.getD r []).length).map fun c => (r, c)

theorem cellOk_eq_false_iff (g : Grid) (gx gy : Int) :
    cellOk g gx gy = false ↔
      gx < 0 ∨ 10 ≤ gx ∨ 20 ≤ gy ∨
        (0 ≤ gy ∧ (cellAt g gy.toNat gx.toNat).isSome = true) := by
  unfold cellOk
  split_ifs with h1 h2
  · simp only [true_iff]
    tauto
  · simp only [true_iff]
    tauto
  · simp only [Bool.true_eq_false, false_iff]
    push_neg at h2 ⊢
    push_neg at h1
    refine ⟨h1.1, h1.2.1, h1.2.2, ?_⟩
    intro hy
    simpa using h2 hy

theorem cellOk_bounds {g : Grid} {gx gy : Int} (h : cellOk g gx gy = true) :
    0 ≤ gx ∧ gx < 10 ∧ gy < 20 := by
  unfold cellOk at h
  split_ifs at h with h1 h2
  push_neg at h1
  exact ⟨h1.1, h1.2.1, h1.2.2⟩

theorem canMove_eq_true_iff (g : Grid) (sh : Shape) (x y : Int) :
    canMove g sh x y = true ↔
      ∀ r, r < sh.length → ∀ c, c < (sh.getD r []).length →
        shapeAt sh r c = true → cellOk g (x + c) (y + r) = true := by
  unfold canMove
  simp only [List.all_eq_true, List.mem_range, Bool.or_eq_true, Bool.not_eq_true']
  constructor
  · intro h r hr c hc hsh
    rcases h r hr c hc with h' | h'
    · rw [hsh] at h'; cases h'
    · exact h'
  · intro h r hr c hc
    by_cases hsh : shapeAt sh r c = true
    · exact Or.inr (h r hr c hc hsh)
    · exact Or.inl (by simpa using hsh)

theorem inBoundsSh_eq_true_iff (sh : Shape) (x y : Int) :
    inBoundsSh sh x y = true ↔
      ∀ r, r < sh.length → ∀ c, c < (sh.getD r []).length →
        shapeAt sh r c = true → 0 ≤ x + c ∧ x + c < 10 ∧ y + r < 20 := by
  unfold inBoundsSh
  simp only [List.all_eq_true, List.mem_range, Bool.or_eq_true, Bool.not_eq_true',
    decide_eq_true_eq]
  constructor
  · intro h r hr c hc hsh
    rcases h r hr c hc with h' | h'
    · rw [hsh] at h'; cases h'
    · exact h'
  · intro h r hr c hc
    by_cases hsh : shapeAt sh r c = true
    · exact Or.inr (h r hr c hc hsh)
    · exact Or.inl (by simpa using hsh)

theorem canMove_imp_inBoundsSh {g : Grid} {sh : Shape} {x y : Int}
    (h : canMove g sh x y = true) : inBoundsSh sh x y = true := by
  rw [canMove_eq_true_iff] at h
  rw [inBoundsSh_eq_true_iff]
  intro r hr c hc hsh
  exact cellOk_bounds (h r hr c hc hsh)

theorem spawn_inBoundsSh (p : PieceType) :
    inBoundsSh (getPieceShape p) 4 0 = true := by
  cases p <;> decide

theorem length_removeRow {g : Grid} {r : Nat} (h : r < g.length) :
    (removeRow g r).length = g.length := by
  simp only [removeRow, List.length_cons, List.length_append, List.length_take,
    List.length_drop]
  omega

theorem removeRow_getD_of_lt {g : Grid} {r i : Nat} (hr : r < g.length) (hi : r < i) :
    (removeRow g r).getD i [] = g.getD i [] := by
  unfold removeRow
  obtain ⟨j, rfl⟩ : ∃ j, i = j + 1 := ⟨i - 1, by omega⟩
  rw [List.getD_eq_getElem?_getD, List.getD_eq_getElem?_getD, List.getElem?_cons_succ,
    List.getElem?_append, if_neg (by simp [List.length_take]; omega), List.getElem?_drop]
  have harith : r + 1 + (j - (List.take r g).length) = j + 1 := by
    simp [List.length_take]
    omega
  rw [harith]

theorem isComplete_emptyRow : isComplete emptyRow = false := by decide

theorem getD_eq_getElem {α : Type} (l : List α) (d : α) {i : Nat} (h : i < l.length) :
    l.getD i d = l[i] := by
  rw [List.getD_eq_getElem?_getD, List.getElem?_eq_getElem h]
  rfl

theorem completeCount_removeRow {g : Grid} {r : Nat} (hr : r < g.length)
    (hc : isComplete (g.getD r []) = true) :
    completeCount (removeRow g r) < completeCount g := by
  unfold completeCount removeRow
  have hsplit : g = g.take r ++ g.getD r [] :: g.drop (r + 1) := by
    rw [getD_eq_getElem _ _ hr]
    rw [← List.drop_eq_getElem_cons hr, List.take_append_drop]
  conv_rhs => rw [hsplit]
  simp [List.countP_cons, List.countP_append, isComplete_emptyRow, hc]
  rw [← List.getD_eq_getElem?_getD, hc]
  simp

theorem one_le_completeCount (r : Nat) {g : Grid} (hr : r < g.length)
    (hc : isComplete (g.getD r []) = true) : 1 ≤ completeCount g := by
  unfold completeCount
  refine List.countP_pos_iff.mpr ?_
  refine ⟨g.getD r [], ?_, hc⟩
  rw [getD_eq_getElem _ _ hr]
  exact List.getElem_mem hr

theorem clearRowsGo_isSome :
    ∀ (fuel : Nat) (g : Grid) (row : Nat), row < g.length →
      20 * completeCount g + row < fuel → (clearRowsGo fuel g row).isSome = true := by
  intro fuel
  induction fuel with
  | zero => intro g row _ h2; omega
  | succ fuel ih =>
    intro g row h1 h2
    unfold clearRowsGo
    by_cases hrow : 0 < row
    · rw [if_pos hrow]
      by_cases hc : isComplete (g.getD row []) = true
      · rw [if_pos hc, if_pos h1]
        refine ih (removeRow g row) row (by rw [length_removeRow h1]; exact h1) ?_
        have hlt := completeCount_removeRow h1 hc
        omega
      · rw [if_neg hc]
        exact ih g (row - 1) (by omega) (by omega)
    · rw [if_neg hrow]
      rfl

theorem clearRowsGo_mono :
    ∀ (fuel fuel2 : Nat) (g : Grid) (row : Nat) (out : Grid),
      clearRowsGo fuel g row = some out → fuel ≤ fuel2 →
      clearRowsGo fuel2 g row = some out := by
  intro fuel
  induction fuel with
  | zero => intro fuel2 g row out h _; simp [clearRowsGo] at h
  | succ fuel ih =>
    intro fuel2 g row out h hle
    obtain ⟨k, rfl⟩ : ∃ k, fuel2 = k + 1 := ⟨fuel2 - 1, by omega⟩
    unfold clearRowsGo at h ⊢
    by_cases hrow : 0 < row
    · rw [if_pos hrow] at h ⊢
      by_cases hc : isComplete (g.getD row []) = true
      · rw [if_pos hc] at h ⊢
        by_cases hlen : row < g.length
        · rw [if_pos hlen] at h ⊢
          exact ih k _ _ _ h (by omega)
        · rw [if_neg hlen] at h
          cases h
      · rw [if_neg hc] at h ⊢
        exact ih k _ _ _ h (by omega)
    · rw [if_neg hrow] at h ⊢
      exact h

theorem clearRowsGo_no_complete :
    ∀ (fuel : Nat) (g : Grid) (row : Nat) (out : Grid),
      g.length = 20 → row < 20 →
      (∀ i, row < i → i < 20 → isComplete (g.getD i []) = false) →
      clearRowsGo fuel g row = some out →
      out.length = 20 ∧ ∀ i, 0 < i → i < 20 → isComplete (out.getD i []) = false := by
  intro fuel
  induction fuel with
  | zero => intro g row out _ _ _ h; simp [clearRowsGo] at h
  | succ fuel ih =>
    intro g row out hlen hrow20 hinv h
    unfold clearRowsGo at h
    by_cases hrow : 0 < row
    · rw [if_pos hrow] at h
      by_cases hc : isComplete (g.getD row []) = true
      · rw [if_pos hc, if_pos (by omega : row < g.length)] at h
        refine ih (removeRow g row) row out ?_ hrow20 ?_ h
        · rw [length_removeRow (by omega)]; exact hlen
        · intro i hi hi20
          rw [removeRow_getD_of_lt (by omega) hi]
          exact hinv i hi hi20
      · rw [if_neg hc] at h
        refine ih g (row - 1) out hlen (by omega) ?_ h
        intro i hi hi20
        by_cases hieq : i = row
        · subst hieq
          exact Bool.not_eq_true _ ▸ (by simpa using hc)
        · exact hinv i (by omega) hi20
    · rw [if_neg hrow] at h
      cases h
      exact ⟨hlen, fun i hi hi20 => hinv i (by omega) hi20⟩

theorem gridWF_removeRow {g : Grid} (h : gridWF g = true) {r : Nat}
    (hr : r < g.length) : gridWF (removeRow g r) = true := by
  unfold gridWF at h ⊢
  simp only [Bool.and_eq_true, beq_iff_eq, List.all_eq_true] at h ⊢
  obtain ⟨hlen, hrows⟩ := h
  constructor
  · rw [length_removeRow hr]; exact hlen
  · intro row hmem
    simp only [removeRow, List.mem_cons, List.mem_append] at hmem
    rcases hmem with rfl | hmem | hmem
    · decide
    · exact hrows row (List.take_subset _ _ hmem)
    · exact hrows row (List.drop_subset _ _ hmem)

theorem clearRowsGo_wf :
    ∀ (fuel : Nat) (g : Grid) (row : Nat) (out : Grid), gridWF g = true →
      clearRowsGo fuel g row = some out → gridWF out = true := by
  intro fuel
  induction fuel with
  | zero => intro g row out _ h; simp [clearRowsGo] at h
  | succ fuel ih =>
    intro g row out hw h
    unfold clearRowsGo at h
    by_cases hrow : 0 < row
    · rw [if_pos hrow] at h
      by_cases hc : isComplete (g.getD row []) = true
      · by_cases hlen : row < g.length
        · rw [if_pos hc, if_pos hlen] at h
          exact ih _ _ _ (gridWF_removeRow hw hlen) h
        · rw [if_pos hc, if_neg hlen] at h
          cases h
      · rw [if_neg hc] at h
        exact ih _ _ _ hw h
    · rw [if_neg hrow] at h
      cases h
      exact hw

theorem gridWF_clearRows {g : Grid} (h : gridWF g = true) :
    gridWF (clearRows g) = true := by
  unfold clearRows
  cases heq : clearRowsGo (20 * completeCount g + 20) g 19 with
  | none => simpa using h
  | some out => simpa using clearRowsGo_wf _ _ _ _ h heq

theorem cellAt_setCell {g : Grid} {a b : Nat} (pt : PieceType)
    (ha : a < g.length) (hb : b < (g.getD a []).length) (ρ κ : Nat) :
    cellAt (setCell g a b pt) ρ κ =
      if a = ρ ∧ b = κ then some pt else cellAt g ρ κ := by
  unfold cellAt setCell
  rw [List.getD_eq_getElem?_getD ((g.set a _)), List.getElem?_set]
  by_cases haρ : a = ρ
  · subst haρ
    rw [if_pos rfl, if_pos ha, Option.getD_some,
      List.getD_eq_getElem?_getD ((g.getD a []).set b _), List.getElem?_set]
    by_cases hbκ : b = κ
    · subst hbκ
      rw [if_pos rfl, if_pos hb, if_pos ⟨rfl, rfl⟩]
      rfl
    · rw [if_neg hbκ, if_neg (fun h => hbκ h.2)]
      simp [List.getD_eq_getElem?_getD]
  · rw [if_neg haρ, if_neg (fun h => haρ h.1)]
    simp [List.getD_eq_getElem?_getD]

theorem gridWF_length {g : Grid} (h : gridWF g = true) : g.length = 20 := by
  unfold gridWF at h
  simp only [Bool.and_eq_true, beq_iff_eq] at h
  exact h.1

theorem gridWF_rowlen {g : Grid} (h : gridWF g = true) {i : Nat} (hi : i < g.length) :
    (g.getD i []).length = 10 := by
  unfold gridWF at h
  simp only [Bool.and_eq_true, beq_iff_eq, List.all_eq_true] at h
  rw [getD_eq_getElem _ _ hi]
  exact h.2 _ (List.getElem_mem hi)

theorem gridWF_setCell {g : Grid} {a b : Nat} (pt : PieceType) (hw : gridWF g = true)
    (ha : a < g.length) : gridWF (setCell g a b pt) = true := by
  unfold gridWF at hw ⊢
  simp only [Bool.and_eq_true, beq_iff_eq, List.all_eq_true] at hw ⊢
  obtain ⟨hlen, hrows⟩ := hw
  refine ⟨by simpa [setCell] using hlen, ?_⟩
  intro row hmem
  rcases List.mem_or_eq_of_mem_set hmem with hmem' | rfl
  · exact hrows row hmem'
  · rw [List.length_set, getD_eq_getElem _ _ ha]
    exact hrows _ (List.getElem_mem ha)

theorem foldl_writeCell_spec (sh : Shape) (x y : Int) (pt : PieceType) :
    ∀ (ps : List (Nat × Nat)) (g : Grid), gridWF g = true →
      (∀ p ∈ ps, shapeAt sh p.1 p.2 = true →
        0 ≤ x + (p.2 : Int) ∧ x + (p.2 : Int) < 10 ∧ y + (p.1 : Int) < 20) →
      gridWF (ps.foldl (writeCell sh x y pt) g) = true ∧
      ∀ ρ κ : Nat,
        ((∃ p ∈ ps, shapeAt sh p.1 p.2 = true ∧ y + (p.1 : Int) = (ρ : Int) ∧
            x + (p.2 : Int) = (κ : Int)) →
          cellAt (ps.foldl (writeCell sh x y pt) g) ρ κ = some pt) ∧
        ((∀ p ∈ ps, ¬(shapeAt sh p.1 p.2 = true ∧ y + (p.1 : Int) = (ρ : Int) ∧
            x + (p.2 : Int) = (κ : Int))) →
          cellAt (ps.foldl (writeCell sh x y pt) g) ρ κ = cellAt g ρ κ) := by
  intro ps
  induction ps with
  | nil =>
    intro g hw _
    refine ⟨hw, fun ρ κ => ⟨?_, fun _ => rfl⟩⟩
    rintro ⟨p, hp, -⟩
    cases hp
  | cons p tl ih =>
    intro g hw hb
    rw [List.foldl_cons]
    by_cases hsh : shapeAt sh p.1 p.2 = true
    · by_cases hy : 0 ≤ y + (p.1 : Int)
      · have hbp := hb p (List.mem_cons_self p tl) hsh
        have hlen20 := gridWF_length hw
        have ha : (y + (p.1 : Int)).toNat < g.length := by omega
        have hrowl : ((x + (p.2 : Int)).toNat) < (g.getD (y + (p.1 : Int)).toNat []).length := by
          rw [gridWF_rowlen hw ha]
          omega
        have hg1 : writeCell sh x y pt g p = setCell g (y + (p.1 : Int)).toNat
            (x + (p.2 : Int)).toNat pt := by
          unfold writeCell
          rw [if_pos hsh, if_pos hy]
        have hg1w : gridWF (writeCell sh x y pt g p) = true := by
          rw [hg1]
          exact gridWF_setCell pt hw ha
        obtain ⟨ihw, ihc⟩ := ih (writeCell sh x y pt g p) hg1w
          (fun q hq => hb q (List.mem_cons_of_mem p hq))
        refine ⟨ihw, fun ρ κ => ⟨?_, ?_⟩⟩
        · rintro ⟨q, hq, hqsh, hqy, hqx⟩
          rcases List.mem_cons.mp hq with rfl | hqtl
          · by_cases htl : ∃ q2 ∈ tl, shapeAt sh q2.1 q2.2 = true ∧
                y + (q2.1 : Int) = (ρ : Int) ∧ x + (q2.2 : Int) = (κ : Int)
            · exact (ihc ρ κ).1 htl
            · push_neg at htl
              rw [(ihc ρ κ).2 (fun q2 hq2 hc2 => htl q2 hq2 hc2.1 hc2.2.1 hc2.2.2)]
              rw [hg1, cellAt_setCell pt ha hrowl, if_pos (by omega)]
          · exact (ihc ρ κ).1 ⟨q, hqtl, hqsh, hqy, hqx⟩
        · intro hnone
          have hp' := hnone p (List.mem_cons_self p tl)
          rw [(ihc ρ κ).2 (fun q hq => hnone q (List.mem_cons_of_mem p hq))]
          rw [hg1, cellAt_setCell pt ha hrowl, if_neg]
          intro hcon
          exact hp' ⟨hsh, by omega, by omega⟩
      · have hg1 : writeCell sh x y pt g p = g := by
          unfold writeCell
          rw [if_pos hsh, if_neg hy]
        rw [hg1]
        obtain ⟨ihw, ihc⟩ := ih g hw (fun q hq => hb q (List.mem_cons_of_mem p hq))
        refine ⟨ihw, fun ρ κ => ⟨?_, ?_⟩⟩
        · rintro ⟨q, hq, hqsh, hqy, hqx⟩
          rcases List.mem_cons.mp hq with rfl | hqtl
          · exact absurd hqy (by omega)
          · exact (ihc ρ κ).1 ⟨q, hqtl, hqsh, hqy, hqx⟩
        · intro hnone
          exact (ihc ρ κ).2 (fun q hq => hnone q (List.mem_cons_of_mem p hq))
    · have hg1 : writeCell sh x y pt g p = g := by
        unfold writeCell
        rw [if_neg (by simpa using hsh)]
      rw [hg1]
      obtain ⟨ihw, ihc⟩ := ih g hw (fun q hq => hb q (List.mem_cons_of_mem p hq))
      refine ⟨ihw, fun ρ κ => ⟨?_, ?_⟩⟩
      · rintro ⟨q, hq, hqsh, hqy, hqx⟩
        rcases List.mem_cons.mp hq with rfl | hqtl
        · exact absurd hqsh hsh
        · exact (ihc ρ κ).1 ⟨q, hqtl, hqsh, hqy, hqx⟩
      · intro hnone
        exact (ihc ρ κ).2 (fun q hq => hnone q (List.mem_cons_of_mem p hq))

theorem foldl_flatMap {α β γ : Type} (l : List α) (h : α → List β) (f : γ → β → γ)
    (a : γ) :
    (l.flatMap h).foldl f a = l.foldl (fun acc xx => (h xx).foldl f acc) a := by
  induction l generalizing a with
  | nil => rfl
  | cons xx xs ihl => simp only [List.flatMap_cons, List.foldl_append, List.foldl_cons, ihl]

theorem lockWrite_eq_foldl (g : Grid) (sh : Shape) (x y : Int) (pt : PieceType) :
    lockWrite g sh x y pt = (shapePositions sh).foldl (writeCell sh x y pt) g := by
  unfold lockWrite shapePositions
  rw [foldl_flatMap]
  simp only [List.foldl_map]

theorem mem_shapePositions {sh : Shape} {p : Nat × Nat} :
    p ∈ shapePositions sh ↔ p.1 < sh.length ∧ p.2 < (sh.getD p.1 []).length := by
  unfold shapePositions
  simp only [List.mem_flatMap, List.mem_map, List.mem_range]
  constructor
  · rintro ⟨r, hr, c, hc, rfl⟩
    exact ⟨hr, hc⟩
  · rintro ⟨h1, h2⟩
    exact ⟨p.1, h1, p.2, h2, rfl⟩

theorem lockWrite_spec {g : Grid} {sh : Shape} {x y : Int} (pt : PieceType)
    (hw : gridWF g = true) (hb : inBoundsSh sh x y = true) :
    gridWF (lockWrite g sh x y pt) = true ∧
    ∀ ρ κ : Nat,
      ((∃ r c, r < sh.length ∧ c < (sh.getD r []).length ∧ shapeAt sh r c = true ∧
          y + (r : Int) = (ρ : Int) ∧ x + (c : Int) = (κ : Int)) →
        cellAt (lockWrite g sh x y pt) ρ κ = some pt) ∧
      ((∀ r c, r < sh.length → c < (sh.getD r []).length →
          ¬(shapeAt sh r c = true ∧ y + (r : Int) = (ρ : Int) ∧
            x + (c : Int) = (κ : Int))) →
        cellAt (lockWrite g sh x y pt) ρ κ = cellAt g ρ κ) := by
  rw [lockWrite_eq_foldl]
  rw [inBoundsSh_eq_true_iff] at hb
  obtain ⟨hwf, hcell⟩ := foldl_writeCell_spec sh x y pt (shapePositions sh) g hw
    (fun p hp hpsh => by
      obtain ⟨h1, h2⟩ := mem_shapePositions.mp hp
      exact hb p.1 h1 p.2 h2 hpsh)
  refine ⟨hwf, fun ρ κ => ⟨?_, ?_⟩⟩
  · rintro ⟨r, c, h1, h2, h3, h4, h5⟩
    exact (hcell ρ κ).1 ⟨(r, c), mem_shapePositions.mpr ⟨h1, h2⟩, h3, h4, h5⟩
  · intro hnone
    refine (hcell ρ κ).2 fun p hp hcon => ?_
    obtain ⟨h1, h2⟩ := mem_shapePositions.mp hp
    exact hnone p.1 p.2 h1 h2 hcon

theorem gridWF_lockWrite {g : Grid} {sh : Shape} {x y : Int} (pt : PieceType)
    (hw : gridWF g = true) (hb : inBoundsSh sh x y = true) :
    gridWF (lockWrite g sh x y pt) = true :=
  (lockWrite_spec pt hw hb).1

theorem inv_step (st : GameState) (i : Input)
    (h1 : pieceInBounds st = true) (h2 : gridWF st.grid = true) :
    pieceInBounds (step st i) = true ∧ gridWF (step st i).grid = true := by
  cases i with
  | left =>
    simp only [step, tryShift]
    split
    · rename_i hc
      exact ⟨canMove_imp_inBoundsSh hc, h2⟩
    · exact ⟨h1, h2⟩
  | right =>
    simp only [step, tryShift]
    split
    · rename_i hc
      exact ⟨canMove_imp_inBoundsSh hc, h2⟩
    · exact ⟨h1, h2⟩
  | rot =>
    simp only [step, rotatePiece]
    split
    · rename_i hc
      exact ⟨canMove_imp_inBoundsSh hc, h2⟩
    · exact ⟨h1, h2⟩
  | tick next =>
    simp only [step, stepTick]
    split
    · rename_i hc
      exact ⟨canMove_imp_inBoundsSh hc, h2⟩
    · refine ⟨spawn_inBoundsSh next, ?_⟩
      exact gridWF_clearRows (gridWF_lockWrite _ h2 h1)

theorem inv_run :
    ∀ (inputs : List Input) (st : GameState),
      pieceInBounds st = true → gridWF st.grid = true →
      pieceInBounds (run st inputs) = true ∧ gridWF (run st inputs).grid = true := by
  intro inputs
  induction inputs with
  | nil => intro st h1 h2; exact ⟨h1, h2⟩
  | cons i tl ih =>
    intro st h1 h2
    obtain ⟨h1', h2'⟩ := inv_step st i h1 h2
    exact ih (step st i) h1' h2'

theorem inv_reachable {st : GameState} (h : Reachable st) :
    pieceInBounds st = true ∧ gridWF st.grid = true := by
  obtain ⟨p, inputs, rfl⟩ := h
  refine inv_run inputs (newGame p) ?_ ?_
  · exact spawn_inBoundsSh p
  · show gridWF (List.replicate 20 emptyRow) = true
    decide

theorem pieceValid_tryShift (st : GameState) (dx : Int)
    (h : pieceValid st = true) : pieceValid (tryShift st dx) = true := by
  unfold tryShift
  split
  · rename_i hc
    exact hc
  · exact h

theorem pieceValid_rotatePiece (st : GameState)
    (h : pieceValid st = true) : pieceValid (rotatePiece st) = true := by
  unfold rotatePiece
  split
  · rename_i hc
    exact hc
  · exact h

theorem pieceValid_stepTick_descend (st : GameState) (next : PieceType)
    (h : canMove st.grid st.current_piece.shape st.current_piece.x
      (st.current_piece.y + 1) = true) :
    pieceValid (stepTick st next) = true := by
  simp only [stepTick]
  rw [if_pos h]
  exact h

theorem length_rotateShape (s : Shape) :
    (rotateShape s).length = (s.getD 0 []).length := by
  unfold rotateShape
  simp

theorem getD_map_range {α : Type} (f : Nat → α) (d : α) {n j : Nat} (hj : j < n) :
    ((List.range n).map f).getD j d = f j := by
  rw [List.getD_eq_getElem?_getD, List.getElem?_map, List.getElem?_range hj]
  rfl

theorem rotateShape_row_length (s : Shape) {j : Nat} (hj : j < (s.getD 0 []).length) :
    ((rotateShape s).getD j []).length = s.length := by
  unfold rotateShape
  rw [getD_map_range _ _ hj]
  simp

theorem shapeAt_rotateShape (s : Shape) {j k : Nat} (hj : j < (s.getD 0 []).length)
    (hk : k < s.length) :
    shapeAt (rotateShape s) j k = shapeAt s (s.length - 1 - k) j := by
  unfold shapeAt rotateShape
  rw [getD_map_range _ _ hj, getD_map_range _ _ hk]
  rfl

set_option maxRecDepth 10000

/-- C1, counterexample: the validity invariant claimed for `current_piece` is
violated on a reachable state.  Dropping ten O pieces straight down (100
gravity ticks from a new game, spawn oracle always answering O) fills columns
4 and 5 of the whole playfield; the respawn performed by the tenth lock then
places a fresh O piece at (4, 0) overlapping occupied cells, with no rollback:
the reached state fails the collision predicate. -/
theorem spawn_overlap_reachable_cex :
    Reachable (run (newGame .O) (List.replicate 100 (Input.tick .O))) ∧
    pieceValid (run (newGame .O) (List.replicate 100 (Input.tick .O))) = false :=
  ⟨⟨.O, List.replicate 100 (Input.tick .O), rfl⟩, by decide⟩

/-- C1, amended: on every reachable state the current piece stays within the
side and bottom bounds (every occupied cell has absolute column in [0, 10)
and absolute row < 20), and the horizontal-move, rotate, and successful
gravity-descend mutators preserve full collision-freedom or roll back; the
respawn inside lock does not validate, so overlap with occupied cells is not
excluded (see the counterexample). -/
theorem reachable_piece_in_bounds (st : GameState) (h : Reachable st) :
    pieceInBounds st = true ∧
    (∀ dx, pieceValid st = true → pieceValid (tryShift st dx) = true) ∧
    (pieceValid st = true → pieceValid (rotatePiece st) = true) ∧
    (∀ next, canMove st.grid st.current_piece.shape st.current_piece.x
        (st.current_piece.y + 1) = true → pieceValid (stepTick st next) = true) :=
  ⟨(inv_reachable h).1,
   fun dx hv => pieceValid_tryShift st dx hv,
   fun hv => pieceValid_rotatePiece st hv,
   fun next hd => pieceValid_stepTick_descend st next hd⟩

/-- Witness for the amended C1 theorem at the initial state of a new game. -/
theorem reachable_piece_in_bounds_witness :
    pieceInBounds (newGame PieceType.I) = true ∧
    (∀ dx, pieceValid (newGame PieceType.I) = true →
      pieceValid (tryShift (newGame PieceType.I) dx) = true) ∧
    (pieceValid (newGame PieceType.I) = true →
      pieceValid (rotatePiece (newGame PieceType.I)) = true) ∧
    (∀ next, canMove (newGame PieceType.I).grid
        (newGame PieceType.I).current_piece.shape
        (newGame PieceType.I).current_piece.x
        ((newGame PieceType.I).current_piece.y + 1) = true →
      pieceValid (stepTick (newGame PieceType.I) next) = true) :=
  reachable_piece_in_bounds (newGame PieceType.I) ⟨PieceType.I, [], rfl⟩

/-- C2: the collision predicate returns false exactly when some occupied
shape cell (r, c) has absolute column x + c outside [0, 10), or absolute
row y + r at least 20, or a nonnegative absolute row whose grid cell is
occupied.  Occupied cells with negative absolute row contribute no clause:
they are rejected neither for their row nor by grid occupancy. -/
theorem canMove_false_characterization (g : Grid) (sh : Shape) (x y : Int) :
    canMove g sh x y = false ↔
      ∃ r c, r < sh.length ∧ c < (sh.getD r []).length ∧ shapeAt sh r c = true ∧
        (x + (c : Int) < 0 ∨ 10 ≤ x + (c : Int) ∨ 20 ≤ y + (r : Int) ∨
          (0 ≤ y + (r : Int) ∧
            (cellAt g (y + (r : Int)).toNat (x + (c : Int)).toNat).isSome = true)) := by
  constructor
  · intro h
    have h' : ¬ canMove g sh x y = true := by simp [h]
    rw [canMove_eq_true_iff] at h'
    push_neg at h'
    obtain ⟨r, hr, c, hc, hsh, hbad⟩ := h'
    refine ⟨r, c, hr, hc, hsh, ?_⟩
    rw [← cellOk_eq_false_iff]
    revert hbad
    cases cellOk g (x + (c : Int)) (y + (r : Int)) <;> simp
  · rintro ⟨r, c, hr, hc, hsh, hbad⟩
    have hcell : cellOk g (x + (c : Int)) (y + (r : Int)) = false :=
      (cellOk_eq_false_iff g _ _).mpr hbad
    rw [← Bool.not_eq_true, canMove_eq_true_iff]
    intro hall
    have hh := hall r hr c hc hsh
    rw [hcell] at hh
    cases hh

/-- C3, counterexample: clear_rows never examines row index 0 (the loop runs
while row > 0), so a grid whose only complete row is row 0 is returned
unchanged, still containing a complete row. -/
theorem clearRows_top_row_cex :
    isComplete (((List.replicate 10 (some PieceType.I) : Row) ::
      List.replicate 19 emptyRow).getD 0 []) = true ∧
    clearRows ((List.replicate 10 (some PieceType.I) : Row) ::
        List.replicate 19 emptyRow) =
      (List.replicate 10 (some PieceType.I) : Row) :: List.replicate 19 emptyRow ∧
    isComplete ((clearRows ((List.replicate 10 (some PieceType.I) : Row) ::
      List.replicate 19 emptyRow)).getD 0 []) = true := by
  refine ⟨by decide, by decide, by decide⟩

/-- C3, amended: one call to clear_rows removes every complete row at index
1 through 19 (including several simultaneous, non-adjacent ones): afterwards
no row with index at least 1 is complete.  A complete row at index 0 is only
removed if some lower row is also complete; a grid whose sole complete row is
row 0 survives unchanged (see the counterexample). -/
theorem clearRows_no_complete_row_below_top (g : Grid) (hlen : g.length = 20) :
    ∀ r, 0 < r → r < 20 → isComplete ((clearRows g).getD r []) = false := by
  intro r h0 h20
  unfold clearRows
  have hsome := clearRowsGo_isSome (20 * completeCount g + 20) g 19
    (by omega) (by omega)
  obtain ⟨out, hout⟩ := Option.isSome_iff_exists.mp hsome
  rw [hout, Option.getD_some]
  have hmain := clearRowsGo_no_complete _ g 19 out hlen (by omega)
    (fun i hi hi20 => (Nat.lt_irrefl 19 (by omega)).elim) hout
  exact hmain.2 r h0 h20

/-- Witness for the amended C3 theorem on an empty grid at row 1. -/
theorem clearRows_no_complete_row_below_top_witness :
    isComplete ((clearRows (List.replicate 20 emptyRow)).getD 1 []) = false :=
  clearRows_no_complete_row_below_top (List.replicate 20 emptyRow) (by decide)
    1 (by decide) (by decide)

/-- C4: rotate computes the candidate as the clockwise quarter-turn of the
R-by-C shape matrix about the bounding-box corner (cell (r, c) of the source
appears at cell (c, R-1-r) of a C-by-R candidate), tests the collision
predicate with the candidate at the unchanged origin, and either commits the
candidate or leaves the state exactly as it was; origin, variant and grid
are untouched in both outcomes. -/
theorem rotatePiece_spec (st : GameState)
    (_hne : 0 < st.current_piece.shape.length) :
    (rotateShape st.current_piece.shape).length =
      (st.current_piece.shape.getD 0 []).length ∧
    (∀ j, j < (st.current_piece.shape.getD 0 []).length →
      ((rotateShape st.current_piece.shape).getD j []).length =
        st.current_piece.shape.length) ∧
    (∀ r c, r < st.current_piece.shape.length →
      c < (st.current_piece.shape.getD 0 []).length →
      shapeAt (rotateShape st.current_piece.shape) c
        (st.current_piece.shape.length - 1 - r) = shapeAt st.current_piece.shape r c) ∧
    rotatePiece st = (if canMove st.grid (rotateShape st.current_piece.shape)
        st.current_piece.x st.current_piece.y = true then
      { st with current_piece :=
          { st.current_piece with shape := rotateShape st.current_piece.shape } }
    else st) := by
  refine ⟨length_rotateShape _, fun j hj => rotateShape_row_length _ hj, ?_, rfl⟩
  intro r c hr hc
  rw [shapeAt_rotateShape _ hc (by omega)]
  congr 1
  omega

/-- Witness for the C4 theorem on a new game with the T piece. -/
theorem rotatePiece_spec_witness :
    (rotateShape (newGame PieceType.T).current_piece.shape).length =
      ((newGame PieceType.T).current_piece.shape.getD 0 []).length ∧
    (∀ j, j < ((newGame PieceType.T).current_piece.shape.getD 0 []).length →
      ((rotateShape (newGame PieceType.T).current_piece.shape).getD j []).length =
        (newGame PieceType.T).current_piece.shape.length) ∧
    (∀ r c, r < (newGame PieceType.T).current_piece.shape.length →
      c < ((newGame PieceType.T).current_piece.shape.getD 0 []).length →
      shapeAt (rotateShape (newGame PieceType.T).current_piece.shape) c
        ((newGame PieceType.T).current_piece.shape.length - 1 - r) =
        shapeAt (newGame PieceType.T).current_piece.shape r c) ∧
    rotatePiece (newGame PieceType.T) =
      (if canMove (newGame PieceType.T).grid
          (rotateShape (newGame PieceType.T).current_piece.shape)
          (newGame PieceType.T).current_piece.x
          (newGame PieceType.T).current_piece.y = true then
        { newGame PieceType.T with current_piece :=
            { (newGame PieceType.T).current_piece with
              shape := rotateShape (newGame PieceType.T).current_piece.shape } }
      else newGame PieceType.T) :=
  rotatePiece_spec (newGame PieceType.T) (by decide)

/-- C6: lock writes occupied(variant) into the grid at the absolute position
of every occupied cell of the current shape with nonnegative absolute row,
silently drops occupied cells with negative absolute row, leaves every other
grid cell untouched by the write phase, and then performs row clearing
followed by the respawn, in that order. -/
theorem lockPiece_spec (st : GameState) (next : PieceType)
    (hw : gridWF st.grid = true) (hb : pieceInBounds st = true) :
    lockPiece st next =
      { grid := clearRows (lockWrite st.grid st.current_piece.shape
          st.current_piece.x st.current_piece.y st.current_piece.piece_type),
        current_piece := spawnNewPiece next } ∧
    ∀ ρ κ : Nat,
      ((∃ r c, r < st.current_piece.shape.length ∧
          c < (st.current_piece.shape.getD r []).length ∧
          shapeAt st.current_piece.shape r c = true ∧
          st.current_piece.y + (r : Int) = (ρ : Int) ∧
          st.current_piece.x + (c : Int) = (κ : Int)) →
        cellAt (lockWrite st.grid st.current_piece.shape st.current_piece.x
          st.current_piece.y st.current_piece.piece_type) ρ κ =
          some st.current_piece.piece_type) ∧
      ((∀ r c, r < st.current_piece.shape.length →
          c < (st.current_piece.shape.getD r []).length →
          ¬(shapeAt st.current_piece.shape r c = true ∧
            st.current_piece.y + (r : Int) = (ρ : Int) ∧
            st.current_piece.x + (c : Int) = (κ : Int))) →
        cellAt (lockWrite st.grid st.current_piece.shape st.current_piece.x
          st.current_piece.y st.current_piece.piece_type) ρ κ =
          cellAt st.grid ρ κ) :=
  ⟨rfl, fun ρ κ => (lockWrite_spec st.current_piece.piece_type hw hb).2 ρ κ⟩

/-- Witness for the C6 theorem on a new game with the S piece. -/
theorem lockPiece_spec_witness :
    lockPiece (newGame PieceType.S) PieceType.J =
      { grid := clearRows (lockWrite (newGame PieceType.S).grid
          (newGame PieceType.S).current_piece.shape
          (newGame PieceType.S).current_piece.x
          (newGame PieceType.S).current_piece.y
          (newGame PieceType.S).current_piece.piece_type),
        current_piece := spawnNewPiece PieceType.J } ∧
    ∀ ρ κ : Nat,
      ((∃ r c, r < (newGame PieceType.S).current_piece.shape.length ∧
          c < ((newGame PieceType.S).current_piece.shape.getD r []).length ∧
          shapeAt (newGame PieceType.S).current_piece.shape r c = true ∧
          (newGame PieceType.S).current_piece.y + (r : Int) = (ρ : Int) ∧
          (newGame PieceType.S).current_piece.x + (c : Int) = (κ : Int)) →
        cellAt (lockWrite (newGame PieceType.S).grid
          (newGame PieceType.S).current_piece.shape
          (newGame PieceType.S).current_piece.x
          (newGame PieceType.S).current_piece.y
          (newGame PieceType.S).current_piece.piece_type) ρ κ =
          some (newGame PieceType.S).current_piece.piece_type) ∧
      ((∀ r c, r < (newGame PieceType.S).current_piece.shape.length →
          c < ((newGame PieceType.S).current_piece.shape.getD r []).length →
          ¬(shapeAt (newGame PieceType.S).current_piece.shape r c = true ∧
            (newGame PieceType.S).current_piece.y + (r : Int) = (ρ : Int) ∧
            (newGame PieceType.S).current_piece.x + (c : Int) = (κ : Int))) →
        cellAt (lockWrite (newGame PieceType.S).grid
          (newGame PieceType.S).current_piece.shape
          (newGame PieceType.S).current_piece.x
          (newGame PieceType.S).current_piece.y
          (newGame PieceType.S).current_piece.piece_type) ρ κ =
          cellAt (newGame PieceType.S).grid ρ κ) :=
  lockPiece_spec (newGame PieceType.S) PieceType.J (by decide) (by decide)

/-- C7: on any state whose current piece carries the O shape and sits at a
collision-free position, the rotated matrix equals the original, the
rotation commits (the collision test accepts), and the whole state is
unchanged. -/
theorem rotate_O_noop (st : GameState)
    (hsh : st.current_piece.shape = getPieceShape .O)
    (hv : pieceValid st = true) :
    rotateShape st.current_piece.shape = st.current_piece.shape ∧
    canMove st.grid (rotateShape st.current_piece.shape) st.current_piece.x
      st.current_piece.y = true ∧
    rotatePiece st = st := by
  obtain ⟨g, sh0, x, y, pt⟩ := st
  simp only at hsh
  subst hsh
  have hrot : rotateShape (getPieceShape .O) = getPieceShape .O := by decide
  refine ⟨hrot, ?_, ?_⟩
  · rw [hrot]
    exact hv
  · unfold rotatePiece
    simp only
    rw [hrot]
    split <;> rfl

/-- Witness for the C7 theorem on a new game with the O piece. -/
theorem rotate_O_noop_witness :
    rotateShape (newGame PieceType.O).current_piece.shape =
      (newGame PieceType.O).current_piece.shape ∧
    canMove (newGame PieceType.O).grid
      (rotateShape (newGame PieceType.O).current_piece.shape)
      (newGame PieceType.O).current_piece.x
      (newGame PieceType.O).current_piece.y = true ∧
    rotatePiece (newGame PieceType.O) = newGame PieceType.O :=
  rotate_O_noop (newGame PieceType.O) (by decide) (by decide)

/-- C8: from any state whose current piece carries the canonical I shape at
a collision-free position, four applications of rotate return the state to
itself; the rotation alternates between the two visually distinct layouts,
1 by 4 and 4 by 1. -/
theorem rotate_I_cycle (st : GameState)
    (hsh : st.current_piece.shape = getPieceShape .I)
    (hv : pieceValid st = true) :
    rotateShape (getPieceShape .I) = [[true], [true], [true], [true]] ∧
    rotateShape [[true], [true], [true], [true]] = getPieceShape .I ∧
    rotatePiece (rotatePiece (rotatePiece (rotatePiece st))) = st := by
  obtain ⟨g, sh0, x, y, pt⟩ := st
  simp only at hsh
  subst hsh
  have hrot1 : rotateShape (getPieceShape .I) = [[true], [true], [true], [true]] := by
    decide
  have hrot2 : rotateShape [[true], [true], [true], [true]] = getPieceShape .I := by
    decide
  refine ⟨hrot1, hrot2, ?_⟩
  by_cases hc : canMove g [[true], [true], [true], [true]] x y = true
  · have e1 : rotatePiece (⟨g, getPieceShape .I, x, y, pt⟩ : GameState) =
        ⟨g, [[true], [true], [true], [true]], x, y, pt⟩ := by
      unfold rotatePiece
      simp only
      rw [hrot1, if_pos hc]
    have e2 : rotatePiece (⟨g, [[true], [true], [true], [true]], x, y, pt⟩ : GameState) =
        ⟨g, getPieceShape .I, x, y, pt⟩ := by
      unfold rotatePiece
      simp only
      rw [hrot2, if_pos (show canMove g (getPieceShape PieceType.I) x y = true from hv)]
    rw [e1, e2, e1, e2]
  · have e0 : rotatePiece (⟨g, getPieceShape .I, x, y, pt⟩ : GameState) =
        ⟨g, getPieceShape .I, x, y, pt⟩ := by
      unfold rotatePiece
      simp only
      rw [hrot1, if_neg hc]
    rw [e0, e0, e0, e0]

/-- Witness for the C8 theorem on a new game with the I piece. -/
theorem rotate_I_cycle_witness :
    rotateShape (getPieceShape .I) = [[true], [true], [true], [true]] ∧
    rotateShape [[true], [true], [true], [true]] = getPieceShape .I ∧
    rotatePiece (rotatePiece (rotatePiece (rotatePiece (newGame PieceType.I)))) =
      newGame PieceType.I :=
  rotate_I_cycle (newGame PieceType.I) (by decide) (by decide)

/-- C9: the clear_rows loop terminates on every 20-row grid: started at scan
index 19, it reaches its exit within the explicit iteration budget
20 * completeCount g + 20 (each shift strictly decreases the number of
complete rows, every other iteration decreases the scan index). -/
theorem clearRows_terminates (g : Grid) (hlen : g.length = 20) :
    (clearRowsGo (20 * completeCount g + 20) g 19).isSome = true :=
  clearRowsGo_isSome _ g 19 (by omega) (by omega)

/-- Witness for the C9 theorem on an empty grid. -/
theorem clearRows_terminates_witness :
    (clearRowsGo (20 * completeCount (List.replicate 20 emptyRow) + 20)
      (List.replicate 20 emptyRow) 19).isSome = true :=
  clearRows_terminates (List.replicate 20 emptyRow) (by decide)

/-- C10: on every reachable state the grid is well formed (20 rows of 10
cells) and every occupied cell of the current piece lies at absolute column
in [0, 10) and absolute row below 20; consequently the unguarded grid
indices used by lock_piece after its row >= 0 test (and by can_move after
its bounds tests) are within range. -/
theorem reachable_index_safety (st : GameState) (h : Reachable st) :
    gridWF st.grid = true ∧
    ∀ r c, r < st.current_piece.shape.length →
      c < (st.current_piece.shape.getD r []).length →
      shapeAt st.current_piece.shape r c = true →
      0 ≤ st.current_piece.x + (c : Int) ∧
      st.current_piece.x + (c : Int) < 10 ∧
      st.current_piece.y + (r : Int) < 20 ∧
      (0 ≤ st.current_piece.y + (r : Int) →
        (st.current_piece.y + (r : Int)).toNat < st.grid.length ∧
        (st.current_piece.x + (c : Int)).toNat <
          (st.grid.getD (st.current_piece.y + (r : Int)).toNat []).length) := by
  obtain ⟨hb, hw⟩ := inv_reachable h
  refine ⟨hw, ?_⟩
  intro r c hr hc hsh
  have hbound := (inBoundsSh_eq_true_iff _ _ _).mp hb r hr c hc hsh
  have hlen := gridWF_length hw
  refine ⟨hbound.1, hbound.2.1, hbound.2.2, fun hy => ?_⟩
  constructor
  · omega
  · rw [gridWF_rowlen hw (by omega)]
    omega

/-- Witness for the C10 theorem at the initial state of a new game. -/
theorem reachable_index_safety_witness :
    gridWF (newGame PieceType.Z).grid = true ∧
    ∀ r c, r < (newGame PieceType.Z).current_piece.shape.length →
      c < ((newGame PieceType.Z).current_piece.shape.getD r []).length →
      shapeAt (newGame PieceType.Z).current_piece.shape r c = true →
      0 ≤ (newGame PieceType.Z).current_piece.x + (c : Int) ∧
      (newGame PieceType.Z).current_piece.x + (c : Int) < 10 ∧
      (newGame PieceType.Z).current_piece.y + (r : Int) < 20 ∧
      (0 ≤ (newGame PieceType.Z).current_piece.y + (r : Int) →
        ((newGame PieceType.Z).current_piece.y + (r : Int)).toNat <
          (newGame PieceType.Z).grid.length ∧
        ((newGame PieceType.Z).current_piece.x + (c : Int)).toNat <
          ((newGame PieceType.Z).grid.getD
            ((newGame PieceType.Z).current_piece.y + (r : Int)).toNat []).length) :=
  reachable_index_safety (newGame PieceType.Z) ⟨PieceType.Z, [], rfl⟩



theorem clearRowsGo_step_complete (fuel : Nat) (g : Grid) (row : Nat)
    (h0 : 0 < row) (hc : isComplete (g.getD row []) = true) (hl : row < g.length) :
    clearRowsGo (fuel + 1) g row = clearRowsGo fuel (removeRow g row) row := by
  show (if 0 < row then
      if isComplete (g.getD row []) then
        if row < g.length then clearRowsGo fuel (removeRow g row) row
        else none
      else clearRowsGo fuel g (row - 1)
    else some g) = clearRowsGo fuel (removeRow g row) row
  rw [if_pos h0, if_pos hc, if_pos hl]

theorem clearRowsGo_step_incomplete (fuel : Nat) (g : Grid) (row : Nat)
    (h0 : 0 < row) (hc : isComplete (g.getD row []) = false) :
    clearRowsGo (fuel + 1) g row = clearRowsGo fuel g (row - 1) := by
  show (if 0 < row then
      if isComplete (g.getD row []) then
        if row < g.length then clearRowsGo fuel (removeRow g row) row
        else none
      else clearRowsGo fuel g (row - 1)
    else some g) = clearRowsGo fuel g (row - 1)
  rw [if_pos h0, if_neg (by rw [hc]; simp)]

theorem clearRowsGo_exit (fuel : Nat) (g : Grid) :
    clearRowsGo (fuel + 1) g 0 = some g := by
  show (if 0 < 0 then
      if isComplete (g.getD 0 []) then
        if 0 < g.length then clearRowsGo fuel (removeRow g 0) 0
        else none
      else clearRowsGo fuel g (0 - 1)
    else some g) = some g
  rw [if_neg (by omega)]

theorem exists_cons_of_length_succ {α : Type} (n : Nat) (l : List α)
    (h : l.length = n + 1) : ∃ a t, l = a :: t ∧ t.length = n := by
  cases l with
  | nil => simp at h
  | cons a t => exact ⟨a, t, rfl, by simpa using h⟩

theorem clearRows_all_complete (g : Grid) (hlen : g.length = 20)
    (hall : ∀ i, i < 20 → isComplete (g.getD i []) = true) :
    clearRows g = List.replicate 20 emptyRow := by
  obtain ⟨r0, g, rfl, hl1⟩ := exists_cons_of_length_succ 19 g hlen
  obtain ⟨r1, g, rfl, hl2⟩ := exists_cons_of_length_succ 18 g hl1
  obtain ⟨r2, g, rfl, hl3⟩ := exists_cons_of_length_succ 17 g hl2
  obtain ⟨r3, g, rfl, hl4⟩ := exists_cons_of_length_succ 16 g hl3
  obtain ⟨r4, g, rfl, hl5⟩ := exists_cons_of_length_succ 15 g hl4
  obtain ⟨r5, g, rfl, hl6⟩ := exists_cons_of_length_succ 14 g hl5
  obtain ⟨r6, g, rfl, hl7⟩ := exists_cons_of_length_succ 13 g hl6
  obtain ⟨r7, g, rfl, hl8⟩ := exists_cons_of_length_succ 12 g hl7
  obtain ⟨r8, g, rfl, hl9⟩ := exists_cons_of_length_succ 11 g hl8
  obtain ⟨r9, g, rfl, hl10⟩ := exists_cons_of_length_succ 10 g hl9
  obtain ⟨r10, g, rfl, hl11⟩ := exists_cons_of_length_succ 9 g hl10
  obtain ⟨r11, g, rfl, hl12⟩ := exists_cons_of_length_succ 8 g hl11
  obtain ⟨r12, g, rfl, hl13⟩ := exists_cons_of_length_succ 7 g hl12
  obtain ⟨r13, g, rfl, hl14⟩ := exists_cons_of_length_succ 6 g hl13
  obtain ⟨r14, g, rfl, hl15⟩ := exists_cons_of_length_succ 5 g hl14
  obtain ⟨r15, g, rfl, hl16⟩ := exists_cons_of_length_succ 4 g hl15
  obtain ⟨r16, g, rfl, hl17⟩ := exists_cons_of_length_succ 3 g hl16
  obtain ⟨r17, g, rfl, hl18⟩ := exists_cons_of_length_succ 2 g hl17
  obtain ⟨r18, g, rfl, hl19⟩ := exists_cons_of_length_succ 1 g hl18
  obtain ⟨r19, g, rfl, hl20⟩ := exists_cons_of_length_succ 0 g hl19
  obtain rfl := List.length_eq_zero.mp hl20
  have hgo : clearRowsGo 40 [r0, r1, r2, r3, r4, r5, r6, r7, r8, r9, r10, r11, r12, r13, r14, r15, r16, r17, r18, r19] 19 = some (List.replicate 20 emptyRow) := by
    calc clearRowsGo 40 [r0, r1, r2, r3, r4, r5, r6, r7, r8, r9, r10, r11, r12, r13, r14, r15, r16, r17, r18, r19] 19
      _ = clearRowsGo 39 [emptyRow, r0, r1, r2, r3, r4, r5, r6, r7, r8, r9, r10, r11, r12, r13, r14, r15, r16, r17, r18] 19 := clearRowsGo_step_complete 39 _ 19 (by decide) (hall 19 (by decide)) (of_decide_eq_true rfl)
      _ = clearRowsGo 38 [emptyRow, emptyRow, r0, r1, r2, r3, r4, r5, r6, r7, r8, r9, r10, r11, r12, r13, r14, r15, r16, r17] 19 := clearRowsGo_step_complete 38 _ 19 (by decide) (hall 18 (by decide)) (of_decide_eq_true rfl)
      _ = clearRowsGo 37 [emptyRow, emptyRow, emptyRow, r0, r1, r2, r3, r4, r5, r6, r7, r8, r9, r10, r11, r12, r13, r14, r15, r16] 19 := clearRowsGo_step_complete 37 _ 19 (by decide) (hall 17 (by decide)) (of_decide_eq_true rfl)
      _ = clearRowsGo 36 [emptyRow, emptyRow, emptyRow, emptyRow, r0, r1, r2, r3, r4, r5, r6, r7, r8, r9, r10, r11, r12, r13, r14, r15] 19 := clearRowsGo_step_complete 36 _ 19 (by decide) (hall 16 (by decide)) (of_decide_eq_true rfl)
      _ = clearRowsGo 35 [emptyRow, emptyRow, emptyRow, emptyRow, emptyRow, r0, r1, r2, r3, r4, r5, r6, r7, r8, r9, r10, r11, r12, r13, r14] 19 := clearRowsGo_step_complete 35 _ 19 (by decide) (hall 15 (by decide)) (of_decide_eq_true rfl)
      _ = clearRowsGo 34 [emptyRow, emptyRow, emptyRow, emptyRow, emptyRow, emptyRow, r0, r1, r2, r3, r4, r5, r6, r7, r8, r9, r10, r11, r12, r13] 19 := clearRowsGo_step_complete 34 _ 19 (by decide) (hall 14 (by decide)) (of_decide_eq_true rfl)
      _ = clearRowsGo 33 [emptyRow, emptyRow, emptyRow, emptyRow, emptyRow, emptyRow, emptyRow, r0, r1, r2, r3, r4, r5, r6, r7, r8, r9, r10, r11, r12] 19 := clearRowsGo_step_complete 33 _ 19 (by decide) (hall 13 (by decide)) (of_decide_eq_true rfl)
      _ = clearRowsGo 32 [emptyRow, emptyRow, emptyRow, emptyRow, emptyRow, emptyRow, emptyRow, emptyRow, r0, r1, r2, r3, r4, r5, r6, r7, r8, r9, r10, r11] 19 := clearRowsGo_step_complete 32 _ 19 (by decide) (hall 12 (by decide)) (of_decide_eq_true rfl)
      _ = clearRowsGo 31 [emptyRow, emptyRow, emptyRow, emptyRow, emptyRow, emptyRow, emptyRow, emptyRow, emptyRow, r0, r1, r2, r3, r4, r5, r6, r7, r8, r9, r10] 19 := clearRowsGo_step_complete 31 _ 19 (by decide) (hall 11 (by decide)) (of_decide_eq_true rfl)
      _ = clearRowsGo 30 [emptyRow, emptyRow, emptyRow, emptyRow, emptyRow, emptyRow, emptyRow, emptyRow, emptyRow, emptyRow, r0, r1, r2, r3, r4, r5, r6, r7, r8, r9] 19 := clearRowsGo_step_complete 30 _ 19 (by decide) (hall 10 (by decide)) (of_decide_eq_true rfl)
      _ = clearRowsGo 29 [emptyRow, emptyRow, emptyRow, emptyRow, emptyRow, emptyRow, emptyRow, emptyRow, emptyRow, emptyRow, emptyRow, r0, r1, r2, r3, r4, r5, r6, r7, r8] 19 := clearRowsGo_step_complete 29 _ 19 (by decide) (hall 9 (by decide)) (of_decide_eq_true rfl)
      _ = clearRowsGo 28 [emptyRow, emptyRow, emptyRow, emptyRow, emptyRow, emptyRow, emptyRow, emptyRow, emptyRow, emptyRow, emptyRow, emptyRow, r0, r1, r2, r3, r4, r5, r6, r7] 19 := clearRowsGo_step_complete 28 _ 19 (by decide) (hall 8 (by decide)) (of_decide_eq_true rfl)
      _ = clearRowsGo 27 [emptyRow, emptyRow, emptyRow, emptyRow, emptyRow, emptyRow, emptyRow, emptyRow, emptyRow, emptyRow, emptyRow, emptyRow, emptyRow, r0, r1, r2, r3, r4, r5, r6] 19 := clearRowsGo_step_complete 27 _ 19 (by decide) (hall 7 (by decide)) (of_decide_eq_true rfl)
      _ = clearRowsGo 26 [emptyRow, emptyRow, emptyRow, emptyRow, emptyRow, emptyRow, emptyRow, emptyRow, emptyRow, emptyRow, emptyRow, emptyRow, emptyRow, emptyRow, r0, r1, r2, r3, r4, r5] 19 := clearRowsGo_step_complete 26 _ 19 (by decide) (hall 6 (by decide)) (of_decide_eq_true rfl)
      _ = clearRowsGo 25 [emptyRow, emptyRow, emptyRow, emptyRow, emptyRow, emptyRow, emptyRow, emptyRow, emptyRow, emptyRow, emptyRow, emptyRow, emptyRow, emptyRow, emptyRow, r0, r1, r2, r3, r4] 19 := clearRowsGo_step_complete 25 _ 19 (by decide) (hall 5 (by decide)) (of_decide_eq_true rfl)
      _ = clearRowsGo 24 [emptyRow, emptyRow, emptyRow, emptyRow, emptyRow, emptyRow, emptyRow, emptyRow, emptyRow, emptyRow, emptyRow, emptyRow, emptyRow, emptyRow, emptyRow, emptyRow, r0, r1, r2, r3] 19 := clearRowsGo_step_complete 24 _ 19 (by decide) (hall 4 (by decide)) (of_decide_eq_true rfl)
      _ = clearRowsGo 23 [emptyRow, emptyRow, emptyRow, emptyRow, emptyRow, emptyRow, emptyRow, emptyRow, emptyRow, emptyRow, emptyRow, emptyRow, emptyRow, emptyRow, emptyRow, emptyRow, emptyRow, r0, r1, r2] 19 := clearRowsGo_step_complete 23 _ 19 (by decide) (hall 3 (by decide)) (of_decide_eq_true rfl)
      _ = clearRowsGo 22 [emptyRow, emptyRow, emptyRow, emptyRow, emptyRow, emptyRow, emptyRow, emptyRow, emptyRow, emptyRow, emptyRow, emptyRow, emptyRow, emptyRow, emptyRow, emptyRow, emptyRow, emptyRow, r0, r1] 19 := clearRowsGo_step_complete 22 _ 19 (by decide) (hall 2 (by decide)) (of_decide_eq_true rfl)
      _ = clearRowsGo 21 [emptyRow, emptyRow, emptyRow, emptyRow, emptyRow, emptyRow, emptyRow, emptyRow, emptyRow, emptyRow, emptyRow, emptyRow, emptyRow, emptyRow, emptyRow, emptyRow, emptyRow, emptyRow, emptyRow, r0] 19 := clearRowsGo_step_complete 21 _ 19 (by decide) (hall 1 (by decide)) (of_decide_eq_true rfl)
      _ = clearRowsGo 20 [emptyRow, emptyRow, emptyRow, emptyRow, emptyRow, emptyRow, emptyRow, emptyRow, emptyRow, emptyRow, emptyRow, emptyRow, emptyRow, emptyRow, emptyRow, emptyRow, emptyRow, emptyRow, emptyRow, emptyRow] 19 := clearRowsGo_step_complete 20 _ 19 (by decide) (hall 0 (by decide)) (of_decide_eq_true rfl)
      _ = clearRowsGo 19 [emptyRow, emptyRow, emptyRow, emptyRow, emptyRow, emptyRow, emptyRow, emptyRow, emptyRow, emptyRow, emptyRow, emptyRow, emptyRow, emptyRow, emptyRow, emptyRow, emptyRow, emptyRow, emptyRow, emptyRow] 18 := clearRowsGo_step_incomplete 19 _ 19 (by decide) isComplete_emptyRow
      _ = clearRowsGo 18 [emptyRow, emptyRow, emptyRow, emptyRow, emptyRow, emptyRow, emptyRow, emptyRow, emptyRow, emptyRow, emptyRow, emptyRow, emptyRow, emptyRow, emptyRow, emptyRow, emptyRow, emptyRow, emptyRow, emptyRow] 17 := clearRowsGo_step_incomplete 18 _ 18 (by decide) isComplete_emptyRow
      _ = clearRowsGo 17 [emptyRow, emptyRow, emptyRow, emptyRow, emptyRow, emptyRow, emptyRow, emptyRow, emptyRow, emptyRow, emptyRow, emptyRow, emptyRow, emptyRow, emptyRow, emptyRow, emptyRow, emptyRow, emptyRow, emptyRow] 16 := clearRowsGo_step_incomplete 17 _ 17 (by decide) isComplete_emptyRow
      _ = clearRowsGo 16 [emptyRow, emptyRow, emptyRow, emptyRow, emptyRow, emptyRow, emptyRow, emptyRow, emptyRow, emptyRow, emptyRow, emptyRow, emptyRow, emptyRow, emptyRow, emptyRow, emptyRow, emptyRow, emptyRow, emptyRow] 15 := clearRowsGo_step_incomplete 16 _ 16 (by decide) isComplete_emptyRow
      _ = clearRowsGo 15 [emptyRow, emptyRow, emptyRow, emptyRow, emptyRow, emptyRow, emptyRow, emptyRow, emptyRow, emptyRow, emptyRow, emptyRow, emptyRow, emptyRow, emptyRow, emptyRow, emptyRow, emptyRow, emptyRow, emptyRow] 14 := clearRowsGo_step_incomplete 15 _ 15 (by decide) isComplete_emptyRow
      _ = clearRowsGo 14 [emptyRow, emptyRow, emptyRow, emptyRow, emptyRow, emptyRow, emptyRow, emptyRow, emptyRow, emptyRow, emptyRow, emptyRow, emptyRow, emptyRow, emptyRow, emptyRow, emptyRow, emptyRow, emptyRow, emptyRow] 13 := clearRowsGo_step_incomplete 14 _ 14 (by decide) isComplete_emptyRow
      _ = clearRowsGo 13 [emptyRow, emptyRow, emptyRow, emptyRow, emptyRow, emptyRow, emptyRow, emptyRow, emptyRow, emptyRow, emptyRow, emptyRow, emptyRow, emptyRow, emptyRow, emptyRow, emptyRow, emptyRow, emptyRow, emptyRow] 12 := clearRowsGo_step_incomplete 13 _ 13 (by decide) isComplete_emptyRow
      _ = clearRowsGo 12 [emptyRow, emptyRow, emptyRow, emptyRow, emptyRow, emptyRow, emptyRow, emptyRow, emptyRow, emptyRow, emptyRow, emptyRow, emptyRow, emptyRow, emptyRow, emptyRow, emptyRow, emptyRow, emptyRow, emptyRow] 11 := clearRowsGo_step_incomplete 12 _ 12 (by decide) isComplete_emptyRow
      _ = clearRowsGo 11 [emptyRow, emptyRow, emptyRow, emptyRow, emptyRow, emptyRow, emptyRow, emptyRow, emptyRow, emptyRow, emptyRow, emptyRow, emptyRow, emptyRow, emptyRow, emptyRow, emptyRow, emptyRow, emptyRow, emptyRow] 10 := clearRowsGo_step_incomplete 11 _ 11 (by decide) isComplete_emptyRow
      _ = clearRowsGo 10 [emptyRow, emptyRow, emptyRow, emptyRow, emptyRow, emptyRow, emptyRow, emptyRow, emptyRow, emptyRow, emptyRow, emptyRow, emptyRow, emptyRow, emptyRow, emptyRow, emptyRow, emptyRow, emptyRow, emptyRow] 9 := clearRowsGo_step_incomplete 10 _ 10 (by decide) isComplete_emptyRow
      _ = clearRowsGo 9 [emptyRow, emptyRow, emptyRow, emptyRow, emptyRow, emptyRow, emptyRow, emptyRow, emptyRow, emptyRow, emptyRow, emptyRow, emptyRow, emptyRow, emptyRow, emptyRow, emptyRow, emptyRow, emptyRow, emptyRow] 8 := clearRowsGo_step_incomplete 9 _ 9 (by decide) isComplete_emptyRow
      _ = clearRowsGo 8 [emptyRow, emptyRow, emptyRow, emptyRow, emptyRow, emptyRow, emptyRow, emptyRow, emptyRow, emptyRow, emptyRow, emptyRow, emptyRow, emptyRow, emptyRow, emptyRow, emptyRow, emptyRow, emptyRow, emptyRow] 7 := clearRowsGo_step_incomplete 8 _ 8 (by decide) isComplete_emptyRow
      _ = clearRowsGo 7 [emptyRow, emptyRow, emptyRow, emptyRow, emptyRow, emptyRow, emptyRow, emptyRow, emptyRow, emptyRow, emptyRow, emptyRow, emptyRow, emptyRow, emptyRow, emptyRow, emptyRow, emptyRow, emptyRow, emptyRow] 6 := clearRowsGo_step_incomplete 7 _ 7 (by decide) isComplete_emptyRow
      _ = clearRowsGo 6 [emptyRow, emptyRow, emptyRow, emptyRow, emptyRow, emptyRow, emptyRow, emptyRow, emptyRow, emptyRow, emptyRow, emptyRow, emptyRow, emptyRow, emptyRow, emptyRow, emptyRow, emptyRow, emptyRow, emptyRow] 5 := clearRowsGo_step_incomplete 6 _ 6 (by decide) isComplete_emptyRow
      _ = clearRowsGo 5 [emptyRow, emptyRow, emptyRow, emptyRow, emptyRow, emptyRow, emptyRow, emptyRow, emptyRow, emptyRow, emptyRow, emptyRow, emptyRow, emptyRow, emptyRow, emptyRow, emptyRow, emptyRow, emptyRow, emptyRow] 4 := clearRowsGo_step_incomplete 5 _ 5 (by decide) isComplete_emptyRow
      _ = clearRowsGo 4 [emptyRow, emptyRow, emptyRow, emptyRow, emptyRow, emptyRow, emptyRow, emptyRow, emptyRow, emptyRow, emptyRow, emptyRow, emptyRow, emptyRow, emptyRow, emptyRow, emptyRow, emptyRow, emptyRow, emptyRow] 3 := clearRowsGo_step_incomplete 4 _ 4 (by decide) isComplete_emptyRow
      _ = clearRowsGo 3 [emptyRow, emptyRow, emptyRow, emptyRow, emptyRow, emptyRow, emptyRow, emptyRow, emptyRow, emptyRow, emptyRow, emptyRow, emptyRow, emptyRow, emptyRow, emptyRow, emptyRow, emptyRow, emptyRow, emptyRow] 2 := clearRowsGo_step_incomplete 3 _ 3 (by decide) isComplete_emptyRow
      _ = clearRowsGo 2 [emptyRow, emptyRow, emptyRow, emptyRow, emptyRow, emptyRow, emptyRow, emptyRow, emptyRow, emptyRow, emptyRow, emptyRow, emptyRow, emptyRow, emptyRow, emptyRow, emptyRow, emptyRow, emptyRow, emptyRow] 1 := clearRowsGo_step_incomplete 2 _ 2 (by decide) isComplete_emptyRow
      _ = clearRowsGo 1 [emptyRow, emptyRow, emptyRow, emptyRow, emptyRow, emptyRow, emptyRow, emptyRow, emptyRow, emptyRow, emptyRow, emptyRow, emptyRow, emptyRow, emptyRow, emptyRow, emptyRow, emptyRow, emptyRow, emptyRow] 0 := clearRowsGo_step_incomplete 1 _ 1 (by decide) isComplete_emptyRow
      _ = some (List.replicate 20 emptyRow) := clearRowsGo_exit 0 _
  unfold clearRows
  have h1 : 1 ≤ completeCount [r0, r1, r2, r3, r4, r5, r6, r7, r8, r9, r10, r11, r12, r13, r14, r15, r16, r17, r18, r19] :=
    one_le_completeCount 19 (of_decide_eq_true rfl) (hall 19 (by decide))
  rw [clearRowsGo_mono 40 _ _ _ _ hgo (by omega), Option.getD_some]

theorem clearRows_two_complete (g : Grid) (hlen : g.length = 20)
    (hc5 : isComplete (g.getD 5 []) = true)
    (hc10 : isComplete (g.getD 10 []) = true)
    (hinc : ∀ i, i < 20 → i ≠ 5 → i ≠ 10 → isComplete (g.getD i []) = false) :
    clearRows g = emptyRow :: emptyRow ::
      (g.take 5 ++ ((g.drop 6).take 4 ++ g.drop 11)) := by
  obtain ⟨r0, g, rfl, hl1⟩ := exists_cons_of_length_succ 19 g hlen
  obtain ⟨r1, g, rfl, hl2⟩ := exists_cons_of_length_succ 18 g hl1
  obtain ⟨r2, g, rfl, hl3⟩ := exists_cons_of_length_succ 17 g hl2
  obtain ⟨r3, g, rfl, hl4⟩ := exists_cons_of_length_succ 16 g hl3
  obtain ⟨r4, g, rfl, hl5⟩ := exists_cons_of_length_succ 15 g hl4
  obtain ⟨r5, g, rfl, hl6⟩ := exists_cons_of_length_succ 14 g hl5
  obtain ⟨r6, g, rfl, hl7⟩ := exists_cons_of_length_succ 13 g hl6
  obtain ⟨r7, g, rfl, hl8⟩ := exists_cons_of_length_succ 12 g hl7
  obtain ⟨r8, g, rfl, hl9⟩ := exists_cons_of_length_succ 11 g hl8
  obtain ⟨r9, g, rfl, hl10⟩ := exists_cons_of_length_succ 10 g hl9
  obtain ⟨r10, g, rfl, hl11⟩ := exists_cons_of_length_succ 9 g hl10
  obtain ⟨r11, g, rfl, hl12⟩ := exists_cons_of_length_succ 8 g hl11
  obtain ⟨r12, g, rfl, hl13⟩ := exists_cons_of_length_succ 7 g hl12
  obtain ⟨r13, g, rfl, hl14⟩ := exists_cons_of_length_succ 6 g hl13
  obtain ⟨r14, g, rfl, hl15⟩ := exists_cons_of_length_succ 5 g hl14
  obtain ⟨r15, g, rfl, hl16⟩ := exists_cons_of_length_succ 4 g hl15
  obtain ⟨r16, g, rfl, hl17⟩ := exists_cons_of_length_succ 3 g hl16
  obtain ⟨r17, g, rfl, hl18⟩ := exists_cons_of_length_succ 2 g hl17
  obtain ⟨r18, g, rfl, hl19⟩ := exists_cons_of_length_succ 1 g hl18
  obtain ⟨r19, g, rfl, hl20⟩ := exists_cons_of_length_succ 0 g hl19
  obtain rfl := List.length_eq_zero.mp hl20
  have hgo : clearRowsGo 22 [r0, r1, r2, r3, r4, r5, r6, r7, r8, r9, r10, r11, r12, r13, r14, r15, r16, r17, r18, r19] 19 = some [emptyRow, emptyRow, r0, r1, r2, r3, r4, r6, r7, r8, r9, r11, r12, r13, r14, r15, r16, r17, r18, r19] := by
    calc clearRowsGo 22 [r0, r1, r2, r3, r4, r5, r6, r7, r8, r9, r10, r11, r12, r13, r14, r15, r16, r17, r18, r19] 19
      _ = clearRowsGo 21 [r0, r1, r2, r3, r4, r5, r6, r7, r8, r9, r10, r11, r12, r13, r14, r15, r16, r17, r18, r19] 18 := clearRowsGo_step_incomplete 21 _ 19 (by decide) (hinc 19 (by decide) (by decide) (by decide))
      _ = clearRowsGo 20 [r0, r1, r2, r3, r4, r5, r6, r7, r8, r9, r10, r11, r12, r13, r14, r15, r16, r17, r18, r19] 17 := clearRowsGo_step_incomplete 20 _ 18 (by decide) (hinc 18 (by decide) (by decide) (by decide))
      _ = clearRowsGo 19 [r0, r1, r2, r3, r4, r5, r6, r7, r8, r9, r10, r11, r12, r13, r14, r15, r16, r17, r18, r19] 16 := clearRowsGo_step_incomplete 19 _ 17 (by decide) (hinc 17 (by decide) (by decide) (by decide))
      _ = clearRowsGo 18 [r0, r1, r2, r3, r4, r5, r6, r7, r8, r9, r10, r11, r12, r13, r14, r15, r16, r17, r18, r19] 15 := clearRowsGo_step_incomplete 18 _ 16 (by decide) (hinc 16 (by decide) (by decide) (by decide))
      _ = clearRowsGo 17 [r0, r1, r2, r3, r4, r5, r6, r7, r8, r9, r10, r11, r12, r13, r14, r15, r16, r17, r18, r19] 14 := clearRowsGo_step_incomplete 17 _ 15 (by decide) (hinc 15 (by decide) (by decide) (by decide))
      _ = clearRowsGo 16 [r0, r1, r2, r3, r4, r5, r6, r7, r8, r9, r10, r11, r12, r13, r14, r15, r16, r17, r18, r19] 13 := clearRowsGo_step_incomplete 16 _ 14 (by decide) (hinc 14 (by decide) (by decide) (by decide))
      _ = clearRowsGo 15 [r0, r1, r2, r3, r4, r5, r6, r7, r8, r9, r10, r11, r12, r13, r14, r15, r16, r17, r18, r19] 12 := clearRowsGo_step_incomplete 15 _ 13 (by decide) (hinc 13 (by decide) (by decide) (by decide))
      _ = clearRowsGo 14 [r0, r1, r2, r3, r4, r5, r6, r7, r8, r9, r10, r11, r12, r13, r14, r15, r16, r17, r18, r19] 11 := clearRowsGo_step_incomplete 14 _ 12 (by decide) (hinc 12 (by decide) (by decide) (by decide))
      _ = clearRowsGo 13 [r0, r1, r2, r3, r4, r5, r6, r7, r8, r9, r10, r11, r12, r13, r14, r15, r16, r17, r18, r19] 10 := clearRowsGo_step_incomplete 13 _ 11 (by decide) (hinc 11 (by decide) (by decide) (by decide))
      _ = clearRowsGo 12 [emptyRow, r0, r1, r2, r3, r4, r5, r6, r7, r8, r9, r11, r12, r13, r14, r15, r16, r17, r18, r19] 10 := clearRowsGo_step_complete 12 _ 10 (by decide) hc10 (of_decide_eq_true rfl)
      _ = clearRowsGo 11 [emptyRow, r0, r1, r2, r3, r4, r5, r6, r7, r8, r9, r11, r12, r13, r14, r15, r16, r17, r18, r19] 9 := clearRowsGo_step_incomplete 11 _ 10 (by decide) (hinc 9 (by decide) (by decide) (by decide))
      _ = clearRowsGo 10 [emptyRow, r0, r1, r2, r3, r4, r5, r6, r7, r8, r9, r11, r12, r13, r14, r15, r16, r17, r18, r19] 8 := clearRowsGo_step_incomplete 10 _ 9 (by decide) (hinc 8 (by decide) (by decide) (by decide))
      _ = clearRowsGo 9 [emptyRow, r0, r1, r2, r3, r4, r5, r6, r7, r8, r9, r11, r12, r13, r14, r15, r16, r17, r18, r19] 7 := clearRowsGo_step_incomplete 9 _ 8 (by decide) (hinc 7 (by decide) (by decide) (by decide))
      _ = clearRowsGo 8 [emptyRow, r0, r1, r2, r3, r4, r5, r6, r7, r8, r9, r11, r12, r13, r14, r15, r16, r17, r18, r19] 6 := clearRowsGo_step_incomplete 8 _ 7 (by decide) (hinc 6 (by decide) (by decide) (by decide))
      _ = clearRowsGo 7 [emptyRow, emptyRow, r0, r1, r2, r3, r4, r6, r7, r8, r9, r11, r12, r13, r14, r15, r16, r17, r18, r19] 6 := clearRowsGo_step_complete 7 _ 6 (by decide) hc5 (of_decide_eq_true rfl)
      _ = clearRowsGo 6 [emptyRow, emptyRow, r0, r1, r2, r3, r4, r6, r7, r8, r9, r11, r12, r13, r14, r15, r16, r17, r18, r19] 5 := clearRowsGo_step_incomplete 6 _ 6 (by decide) (hinc 4 (by decide) (by decide) (by decide))
      _ = clearRowsGo 5 [emptyRow, emptyRow, r0, r1, r2, r3, r4, r6, r7, r8, r9, r11, r12, r13, r14, r15, r16, r17, r18, r19] 4 := clearRowsGo_step_incomplete 5 _ 5 (by decide) (hinc 3 (by decide) (by decide) (by decide))
      _ = clearRowsGo 4 [emptyRow, emptyRow, r0, r1, r2, r3, r4, r6, r7, r8, r9, r11, r12, r13, r14, r15, r16, r17, r18, r19] 3 := clearRowsGo_step_incomplete 4 _ 4 (by decide) (hinc 2 (by decide) (by decide) (by decide))
      _ = clearRowsGo 3 [emptyRow, emptyRow, r0, r1, r2, r3, r4, r6, r7, r8, r9, r11, r12, r13, r14, r15, r16, r17, r18, r19] 2 := clearRowsGo_step_incomplete 3 _ 3 (by decide) (hinc 1 (by decide) (by decide) (by decide))
      _ = clearRowsGo 2 [emptyRow, emptyRow, r0, r1, r2, r3, r4, r6, r7, r8, r9, r11, r12, r13, r14, r15, r16, r17, r18, r19] 1 := clearRowsGo_step_incomplete 2 _ 2 (by decide) (hinc 0 (by decide) (by decide) (by decide))
      _ = clearRowsGo 1 [emptyRow, emptyRow, r0, r1, r2, r3, r4, r6, r7, r8, r9, r11, r12, r13, r14, r15, r16, r17, r18, r19] 0 := clearRowsGo_step_incomplete 1 _ 1 (by decide) isComplete_emptyRow
      _ = some [emptyRow, emptyRow, r0, r1, r2, r3, r4, r6, r7, r8, r9, r11, r12, r13, r14, r15, r16, r17, r18, r19] := clearRowsGo_exit 0 _
  unfold clearRows
  have h1 : 1 ≤ completeCount [r0, r1, r2, r3, r4, r5, r6, r7, r8, r9, r10, r11, r12, r13, r14, r15, r16, r17, r18, r19] :=
    one_le_completeCount 5 (of_decide_eq_true rfl) hc5
  rw [clearRowsGo_mono 22 _ _ _ _ hgo (by omega), Option.getD_some]
  rfl

/-- C5: one call to clear_rows turns a grid whose 20 rows are all fully
occupied into the fully empty grid; and on a grid whose only complete rows
are rows 5 and 10 (all other rows incomplete, contents otherwise arbitrary)
one call removes both: rows formerly above row 5 end up shifted down by 2
below 2 fresh empty rows at the top, rows strictly between end up shifted
down by 1, rows below row 10 stay in place. -/
theorem clearRows_full_and_two_rows :
    (∀ g : Grid, g.length = 20 → (∀ i, i < 20 → isComplete (g.getD i []) = true) →
      clearRows g = List.replicate 20 emptyRow) ∧
    (∀ g : Grid, g.length = 20 → isComplete (g.getD 5 []) = true →
      isComplete (g.getD 10 []) = true →
      (∀ i, i < 20 → i ≠ 5 → i ≠ 10 → isComplete (g.getD i []) = false) →
      clearRows g = emptyRow :: emptyRow ::
        (g.take 5 ++ ((g.drop 6).take 4 ++ g.drop 11))) :=
  ⟨fun g h1 h2 => clearRows_all_complete g h1 h2,
   fun g h1 h2 h3 h4 => clearRows_two_complete g h1 h2 h3 h4⟩

/-- Witness for the C5 theorem: the concrete all-full grid empties, and a
concrete grid whose rows 5 and 10 are the only complete ones loses exactly
those two rows. -/
theorem clearRows_full_and_two_rows_witness :
    clearRows (List.replicate 20 (List.replicate 10 (some PieceType.I))) =
      List.replicate 20 emptyRow ∧
    clearRows (((some PieceType.J) :: List.replicate 9 none) :: emptyRow :: emptyRow ::
        emptyRow :: emptyRow :: List.replicate 10 (some PieceType.T) :: emptyRow ::
        emptyRow :: emptyRow :: emptyRow :: List.replicate 10 (some PieceType.T) ::
        List.replicate 9 emptyRow) =
      emptyRow :: emptyRow ::
        ((((some PieceType.J) :: List.replicate 9 none) :: emptyRow :: emptyRow ::
            emptyRow :: emptyRow :: List.replicate 10 (some PieceType.T) :: emptyRow ::
            emptyRow :: emptyRow :: emptyRow :: List.replicate 10 (some PieceType.T) ::
            List.replicate 9 emptyRow).take 5 ++
          (((((some PieceType.J) :: List.replicate 9 none) :: emptyRow :: emptyRow ::
              emptyRow :: emptyRow :: List.replicate 10 (some PieceType.T) :: emptyRow ::
              emptyRow :: emptyRow :: emptyRow :: List.replicate 10 (some PieceType.T) ::
              List.replicate 9 emptyRow).drop 6).take 4 ++
            (((some PieceType.J) :: List.replicate 9 none) :: emptyRow :: emptyRow ::
              emptyRow :: emptyRow :: List.replicate 10 (some PieceType.T) :: emptyRow ::
              emptyRow :: emptyRow :: emptyRow :: List.replicate 10 (some PieceType.T) ::
              List.replicate 9 emptyRow).drop 11)) :=
  ⟨clearRows_full_and_two_rows.1 (List.replicate 20 (List.replicate 10 (some PieceType.I)))
      (by decide) (by decide),
   clearRows_full_and_two_rows.2 _ (by decide) (by decide) (by decide) (by decide)⟩

end Tetrust
